import Mathlib

/-!
Shallow embedding of the VOICEVOX core synthesizer facade
(`crates/voicevox_core/src/voice_synthesizer.rs`) and of the C-API helper
conversions (`crates/voicevox_core_c_api/src/helpers.rs`).

Machine floats (`f32`/`f64`) are embedded as `ℚ`; the numeric literals the
source uses (`1.`, `0.`, `0.1`, `0.01`) are exact in that embedding.  Fallible
Rust functions returning `Result<T>` are embedded as `Except Error T`.

The `SynthesisEngine`, `InferenceCore`, the AquesTalk kana parser and printer
and the `SupportedDevices` probe live outside the provided sources; they are
embedded as oracle fields (arbitrary functions) or, where a claim depends on
their behaviour, as definitions modelled from the specification and marked so.
-/

namespace Voicevox

/-- Style identifier (`StyleId`, a `u32` newtype used purely as a key). -/
abbrev StyleId := Nat

/-- Voice-model identifier (`VoiceModelId`, a UUID string newtype). -/
abbrev VoiceModelId := String

/-- `MoraModel`: one mora, with optional consonant and its length, vowel and
its length, and pitch. -/
structure MoraModel where
  text : String
  consonant : Option String
  consonant_length : Option ℚ
  vowel : String
  vowel_length : ℚ
  pitch : ℚ
deriving DecidableEq

/-- `AccentPhraseModel`: ordered moras, 1-based accent position, optional
pause mora, interrogative flag. -/
structure AccentPhraseModel where
  moras : List MoraModel
  accent : Nat
  pause_mora : Option MoraModel
  is_interrogative : Bool
deriving DecidableEq

/-- `AudioQueryModel`: the audio query record produced by
`Synthesizer::audio_query` and consumed by `Synthesizer::synthesis`. -/
structure AudioQueryModel where
  accent_phrases : List AccentPhraseModel
  speed_scale : ℚ
  pitch_scale : ℚ
  intonation_scale : ℚ
  volume_scale : ℚ
  pre_phoneme_length : ℚ
  post_phoneme_length : ℚ
  output_sampling_rate : Nat
  output_stereo : Bool
  kana : Option String
deriving DecidableEq

/-- `LoadModelErrorKind` (`voicevox_core`): the five model-loading error
sub-kinds distinguished by the C-API result-code mapping. -/
inductive LoadModelErrorKind where
  | OpenZipFile
  | ReadZipEntry
  | ModelAlreadyLoaded
  | StyleAlreadyLoaded
  | InvalidModelData
deriving DecidableEq

/-- `voicevox_core::Error`: the error kinds of the core crate.  Payloads that
do not influence any matched behaviour are dropped. -/
inductive Error where
  | NotLoadedOpenjtalkDict
  | GpuSupport
  | LoadModel (kind : LoadModelErrorKind)
  | GetSupportedDevices
  | InvalidStyleId
  | InvalidModelId
  | InferenceFailed
  | ExtractFullContextLabel
  | UnloadedModel
  | ParseKana
  | LoadUserDict
  | SaveUserDict
  | UnknownWord
  | UseUserDict
  | InvalidWord
deriving DecidableEq

/-- `SupportedDevices`: availability flags reported by the device probe. -/
structure SupportedDevices where
  cpu : Bool
  cuda : Bool
  dml : Bool
deriving DecidableEq

/-- `SynthesisOptions` (`voice_synthesizer.rs`). -/
structure SynthesisOptions where
  enable_interrogative_upspeak : Bool
deriving DecidableEq

/-- `AccentPhrasesOptions` (`voice_synthesizer.rs`). -/
structure AccentPhrasesOptions where
  kana : Bool
deriving DecidableEq

/-- `AudioQueryOptions` (`voice_synthesizer.rs`). -/
structure AudioQueryOptions where
  kana : Bool
deriving DecidableEq

/-- `TtsOptions` (`voice_synthesizer.rs`). -/
structure TtsOptions where
  kana : Bool
  enable_interrogative_upspeak : Bool
deriving DecidableEq

/-- `impl From<&TtsOptions> for SynthesisOptions` (`voice_synthesizer.rs`). -/
def SynthesisOptions.from_tts (options : TtsOptions) : SynthesisOptions :=
  { enable_interrogative_upspeak := options.enable_interrogative_upspeak }

/-- `impl From<&TtsOptions> for AudioQueryOptions` (`voice_synthesizer.rs`). -/
def AudioQueryOptions.from_tts (options : TtsOptions) : AudioQueryOptions :=
  { kana := options.kana }

/-- `AccelerationMode` (`voice_synthesizer.rs`). -/
inductive AccelerationMode where
  | Auto
  | Cpu
  | Gpu
deriving DecidableEq

/-- `InitializeOptions` (`voice_synthesizer.rs`); `cpu_num_threads` is a
`u16`, embedded as `Nat` (its value is only passed through). -/
structure InitializeOptions where
  acceleration_mode : AccelerationMode
  cpu_num_threads : Nat
  load_all_models : Bool

/-- Modelled from the spec: the `InferenceCore` (not under the provided
sources).  Its raw ONNX duration session is an oracle; only the
post-processing of `predict_duration` (the clamp below) is specified. -/
structure InferenceCore where
  duration_session : List Int → StyleId → Except Error (List ℚ)

/-- Modelled from the spec: `InferenceCore::predict_duration` runs the raw
duration session and then clamps every output below 0.01 up to 0.01. -/
def InferenceCore.predict_duration (core : InferenceCore)
    (phoneme_vector : List Int) (style_id : StyleId) : Except Error (List ℚ) :=
  (core.duration_session phoneme_vector style_id).map fun output =>
    output.map fun x => if x < 1 / 100 then 1 / 100 else x

/-- Modelled from the spec: the `SynthesisEngine` (not under the provided
sources).  Its operations are oracle fields: the facade in
`voice_synthesizer.rs` only delegates to them, so every claim about the
facade is proved for arbitrary engine behaviour. -/
structure SynthesisEngine where
  inference_core : InferenceCore
  is_openjtalk_dict_loaded : Bool
  create_accent_phrases :
    String → StyleId → Except Error (List AccentPhraseModel)
  replace_mora_data :
    List AccentPhraseModel → StyleId → Except Error (List AccentPhraseModel)
  replace_phoneme_length :
    List AccentPhraseModel → StyleId → Except Error (List AccentPhraseModel)
  replace_mora_pitch :
    List AccentPhraseModel → StyleId → Except Error (List AccentPhraseModel)
  synthesis_wave_format :
    AudioQueryModel → StyleId → Bool → Except Error (List Nat)

/-- Modelled from the spec: `SynthesisEngine::DEFAULT_SAMPLING_RATE = 24000`
(the constant itself is defined outside the provided sources). -/
def SynthesisEngine.DEFAULT_SAMPLING_RATE : Nat := 24000

/-- Modelled from the spec: the free functions `parse_kana` and `create_kana`
of the AquesTalk-style kana module (not under the provided sources),
embedded as oracles. -/
structure Externals where
  parse_kana : String → Except Error (List AccentPhraseModel)
  create_kana : List AccentPhraseModel → String

/-- `Synthesizer` (`voice_synthesizer.rs` lines 99-102): the synthesis engine
plus the `use_gpu` flag fixed at construction. -/
structure Synthesizer where
  synthesis_engine : SynthesisEngine
  use_gpu : Bool

/-- The build/runtime environment of `Synthesizer::new_with_initialize`:
the `SupportedDevices::create()` probe, the composition of
`InferenceCore::new_with_initialize` with `SynthesisEngine::new` (both outside
the provided sources), and the compile-time `directml` feature flag. -/
structure Environment where
  supported_devices_create : Except Error SupportedDevices
  new_engine : Bool → Nat → Bool → Except Error SynthesisEngine
  directml : Bool

/-- `Synthesizer::new_with_initialize` (`voice_synthesizer.rs` lines 133-168):
resolve `use_gpu` from the acceleration mode (consulting the device probe
under `Auto`, choosing the `dml` flag under the DirectML build and the
`cuda` flag otherwise), then construct the engine. -/
def Synthesizer.new_with_initialize (env : Environment)
    (options : InitializeOptions) : Except Error Synthesizer :=
  (match options.acceleration_mode with
    | AccelerationMode.Auto =>
        env.supported_devices_create.map fun (supported_devices : SupportedDevices) =>
          if env.directml then supported_devices.dml else supported_devices.cuda
    | AccelerationMode.Cpu => Except.ok false
    | AccelerationMode.Gpu => Except.ok true).bind fun use_gpu =>
  (env.new_engine use_gpu options.cpu_num_threads options.load_all_models).bind
    fun engine =>
  Except.ok { synthesis_engine := engine, use_gpu := use_gpu }

/-- `Synthesizer::is_gpu_mode` (`voice_synthesizer.rs` lines 171-173). -/
def Synthesizer.is_gpu_mode (self : Synthesizer) : Bool :=
  self.use_gpu

/-- `Synthesizer::predict_duration` (`voice_synthesizer.rs` lines 223-232):
delegates to the inference core. -/
def Synthesizer.predict_duration (self : Synthesizer)
    (phoneme_vector : List Int) (style_id : StyleId) : Except Error (List ℚ) :=
  self.synthesis_engine.inference_core.predict_duration phoneme_vector style_id

/-- `Synthesizer::create_accent_phrases` (`voice_synthesizer.rs` lines
374-392): fail with `NotLoadedOpenjtalkDict` unless the dictionary is loaded;
then either parse the text as kana and hand the result to the engine's
`replace_mora_data`, or hand the text to the engine's analyzer path. -/
def Synthesizer.create_accent_phrases (ext : Externals) (self : Synthesizer)
    (text : String) (style_id : StyleId) (options : AccentPhrasesOptions) :
    Except Error (List AccentPhraseModel) :=
  if !self.synthesis_engine.is_openjtalk_dict_loaded then
    Except.error Error.NotLoadedOpenjtalkDict
  else if options.kana then
    (ext.parse_kana text).bind fun parsed =>
      self.synthesis_engine.replace_mora_data parsed style_id
  else
    self.synthesis_engine.create_accent_phrases text style_id

/-- `Synthesizer::replace_mora_data` (`voice_synthesizer.rs` lines 395-403). -/
def Synthesizer.replace_mora_data (self : Synthesizer)
    (accent_phrases : List AccentPhraseModel) (style_id : StyleId) :
    Except Error (List AccentPhraseModel) :=
  self.synthesis_engine.replace_mora_data accent_phrases style_id

/-- `Synthesizer::replace_phoneme_length` (`voice_synthesizer.rs` lines
406-414). -/
def Synthesizer.replace_phoneme_length (self : Synthesizer)
    (accent_phrases : List AccentPhraseModel) (style_id : StyleId) :
    Except Error (List AccentPhraseModel) :=
  self.synthesis_engine.replace_phoneme_length accent_phrases style_id

/-- `Synthesizer::replace_mora_pitch` (`voice_synthesizer.rs` lines 417-425). -/
def Synthesizer.replace_mora_pitch (self : Synthesizer)
    (accent_phrases : List AccentPhraseModel) (style_id : StyleId) :
    Except Error (List AccentPhraseModel) :=
  self.synthesis_engine.replace_mora_pitch accent_phrases style_id

/-- `Synthesizer::audio_query` (`voice_synthesizer.rs` lines 526-548):
create accent phrases, print their kana, and build the query with the fixed
defaults `(1, 0, 1, 1, 0.1, 0.1, DEFAULT_SAMPLING_RATE, false)`. -/
def Synthesizer.audio_query (ext : Externals) (self : Synthesizer)
    (text : String) (style_id : StyleId) (options : AudioQueryOptions) :
    Except Error AudioQueryModel :=
  (self.create_accent_phrases ext text style_id
      { kana := options.kana }).bind fun accent_phrases =>
    let kana := ext.create_kana accent_phrases
    Except.ok
      { accent_phrases := accent_phrases
      , speed_scale := 1
      , pitch_scale := 0
      , intonation_scale := 1
      , volume_scale := 1
      , pre_phoneme_length := 1 / 10
      , post_phoneme_length := 1 / 10
      , output_sampling_rate := SynthesisEngine.DEFAULT_SAMPLING_RATE
      , output_stereo := false
      , kana := some kana }

/-- `Synthesizer::synthesis` (`voice_synthesizer.rs` lines 211-220):
delegates to the engine's `synthesis_wave_format`. -/
def Synthesizer.synthesis (self : Synthesizer)
    (audio_query : AudioQueryModel) (style_id : StyleId)
    (options : SynthesisOptions) : Except Error (List Nat) :=
  self.synthesis_engine.synthesis_wave_format audio_query style_id
    options.enable_interrogative_upspeak

/-- `Synthesizer::tts` (`voice_synthesizer.rs` lines 556-567):
`audio_query` with the converted options, then `synthesis`. -/
def Synthesizer.tts (ext : Externals) (self : Synthesizer) (text : String)
    (style_id : StyleId) (options : TtsOptions) : Except Error (List Nat) :=
  (self.audio_query ext text style_id
      (AudioQueryOptions.from_tts options)).bind fun audio_query =>
    self.synthesis audio_query style_id (SynthesisOptions.from_tts options)

/-- `VoiceModel`: only its identity matters to the facade operations
modelled here. -/
structure VoiceModel where
  id : VoiceModelId

/-- One facade operation on a constructed `Synthesizer` (the operations the
facade exposes after construction; arguments are carried as payloads). -/
inductive SynthOp where
  | load_voice_model (model : VoiceModel)
  | unload_voice_model (voice_model_id : VoiceModelId)
  | create_accent_phrases (text : String) (style_id : StyleId)
      (options : AccentPhrasesOptions)
  | replace_mora_data (accent_phrases : List AccentPhraseModel)
      (style_id : StyleId)
  | replace_phoneme_length (accent_phrases : List AccentPhraseModel)
      (style_id : StyleId)
  | replace_mora_pitch (accent_phrases : List AccentPhraseModel)
      (style_id : StyleId)
  | audio_query (text : String) (style_id : StyleId)
      (options : AudioQueryOptions)
  | synthesis (audio_query : AudioQueryModel) (style_id : StyleId)
      (options : SynthesisOptions)
  | tts (text : String) (style_id : StyleId) (options : TtsOptions)
  | predict_duration (phoneme_vector : List Int) (style_id : StyleId)

/-- Effect of one facade operation on the synthesizer state.  Every facade
method takes `&self`; the only interior mutability sits inside
`synthesis_engine` (the model registry), so an operation may update the
engine component — by an arbitrary engine transition `eff`, covering any
behaviour of the unshown engine — while the plain `use_gpu` field is
untouched. -/
def Synthesizer.step (eff : SynthesisEngine → SynthOp → SynthesisEngine)
    (self : Synthesizer) (op : SynthOp) : Synthesizer :=
  { self with synthesis_engine := eff self.synthesis_engine op }

/-- Run a sequence of facade operations. -/
def Synthesizer.run (eff : SynthesisEngine → SynthOp → SynthesisEngine)
    (self : Synthesizer) : List SynthOp → Synthesizer
  | [] => self
  | op :: ops => Synthesizer.run eff (self.step eff op) ops

/-- The accent phrases owned by the caller of the `replace_*` operations.
Each of those operations takes the slice by shared reference
(`&[AccentPhraseModel]`, no interior mutability), so the call is embedded as
a state transformer on the caller store that also yields the fresh output. -/
structure CallerStore where
  phrases : List AccentPhraseModel

/-- `Synthesizer::replace_mora_data` as a call on the caller store: the store
is passed by shared reference; the returned sequence is the engine's freshly
built vector. -/
def Synthesizer.replace_mora_data_call (self : Synthesizer)
    (store : CallerStore) (style_id : StyleId) :
    CallerStore × Except Error (List AccentPhraseModel) :=
  (store, self.replace_mora_data store.phrases style_id)

/-- `Synthesizer::replace_phoneme_length` as a call on the caller store. -/
def Synthesizer.replace_phoneme_length_call (self : Synthesizer)
    (store : CallerStore) (style_id : StyleId) :
    CallerStore × Except Error (List AccentPhraseModel) :=
  (store, self.replace_phoneme_length store.phrases style_id)

/-- `Synthesizer::replace_mora_pitch` as a call on the caller store. -/
def Synthesizer.replace_mora_pitch_call (self : Synthesizer)
    (store : CallerStore) (style_id : StyleId) :
    CallerStore × Except Error (List AccentPhraseModel) :=
  (store, self.replace_mora_pitch store.phrases style_id)

/-- `CApiError` (`helpers.rs` lines 60-72).  Payloads are dropped: the
result-code mapping matches on constructors only. -/
inductive CApiError where
  | RustApi (e : Error)
  | InvalidUtf8Input
  | InvalidAudioQuery
  | InvalidAccentPhrase
  | InvalidUuid
deriving DecidableEq

/-- `VoicevoxResultCode`: the C-API result codes targeted by
`into_result_code_with_error` (`helpers.rs`). -/
inductive VoicevoxResultCode where
  | VOICEVOX_RESULT_OK
  | VOICEVOX_RESULT_NOT_LOADED_OPENJTALK_DICT_ERROR
  | VOICEVOX_RESULT_GPU_SUPPORT_ERROR
  | VOICEVOX_RESULT_OPEN_ZIP_FILE_ERROR
  | VOICEVOX_RESULT_READ_ZIP_ENTRY_ERROR
  | VOICEVOX_RESULT_MODEL_ALREADY_LOADED_ERROR
  | VOICEVOX_RESULT_STYLE_ALREADY_LOADED_ERROR
  | VOICEVOX_RESULT_INVALID_MODEL_DATA_ERROR
  | VOICEVOX_RESULT_GET_SUPPORTED_DEVICES_ERROR
  | VOICEVOX_RESULT_INVALID_STYLE_ID_ERROR
  | VOICEVOX_RESULT_INVALID_MODEL_ID_ERROR
  | VOICEVOX_RESULT_INFERENCE_ERROR
  | VOICEVOX_RESULT_EXTRACT_FULL_CONTEXT_LABEL_ERROR
  | VOICEVOX_RESULT_UNLOADED_MODEL_ERROR
  | VOICEVOX_RESULT_PARSE_KANA_ERROR
  | VOICEVOX_RESULT_LOAD_USER_DICT_ERROR
  | VOICEVOX_RESULT_SAVE_USER_DICT_ERROR
  | VOICEVOX_RESULT_UNKNOWN_USER_DICT_WORD_ERROR
  | VOICEVOX_RESULT_USE_USER_DICT_ERROR
  | VOICEVOX_RESULT_INVALID_USER_DICT_WORD_ERROR
  | VOICEVOX_RESULT_INVALID_UTF8_INPUT_ERROR
  | VOICEVOX_RESULT_INVALID_AUDIO_QUERY_ERROR
  | VOICEVOX_RESULT_INVALID_ACCENT_PHRASE_ERROR
  | VOICEVOX_RESULT_INVALID_UUID_ERROR
deriving DecidableEq

/-- `into_result_code_with_error` (`helpers.rs` lines 9-56).  The
`display_error` logging on the error branch is an I/O side effect with no
bearing on the returned code and is omitted. -/
def into_result_code_with_error (result : Except CApiError Unit) :
    VoicevoxResultCode :=
  match result with
  | Except.ok () => VoicevoxResultCode.VOICEVOX_RESULT_OK
  | Except.error (CApiError.RustApi Error.NotLoadedOpenjtalkDict) =>
      VoicevoxResultCode.VOICEVOX_RESULT_NOT_LOADED_OPENJTALK_DICT_ERROR
  | Except.error (CApiError.RustApi Error.GpuSupport) =>
      VoicevoxResultCode.VOICEVOX_RESULT_GPU_SUPPORT_ERROR
  | Except.error (CApiError.RustApi (Error.LoadModel kind)) =>
      match kind with
      | LoadModelErrorKind.OpenZipFile =>
          VoicevoxResultCode.VOICEVOX_RESULT_OPEN_ZIP_FILE_ERROR
      | LoadModelErrorKind.ReadZipEntry =>
          VoicevoxResultCode.VOICEVOX_RESULT_READ_ZIP_ENTRY_ERROR
      | LoadModelErrorKind.ModelAlreadyLoaded =>
          VoicevoxResultCode.VOICEVOX_RESULT_MODEL_ALREADY_LOADED_ERROR
      | LoadModelErrorKind.StyleAlreadyLoaded =>
          VoicevoxResultCode.VOICEVOX_RESULT_STYLE_ALREADY_LOADED_ERROR
      | LoadModelErrorKind.InvalidModelData =>
          VoicevoxResultCode.VOICEVOX_RESULT_INVALID_MODEL_DATA_ERROR
  | Except.error (CApiError.RustApi Error.GetSupportedDevices) =>
      VoicevoxResultCode.VOICEVOX_RESULT_GET_SUPPORTED_DEVICES_ERROR
  | Except.error (CApiError.RustApi Error.InvalidStyleId) =>
      VoicevoxResultCode.VOICEVOX_RESULT_INVALID_STYLE_ID_ERROR
  | Except.error (CApiError.RustApi Error.InvalidModelId) =>
      VoicevoxResultCode.VOICEVOX_RESULT_INVALID_MODEL_ID_ERROR
  | Except.error (CApiError.RustApi Error.InferenceFailed) =>
      VoicevoxResultCode.VOICEVOX_RESULT_INFERENCE_ERROR
  | Except.error (CApiError.RustApi Error.ExtractFullContextLabel) =>
      VoicevoxResultCode.VOICEVOX_RESULT_EXTRACT_FULL_CONTEXT_LABEL_ERROR
  | Except.error (CApiError.RustApi Error.UnloadedModel) =>
      VoicevoxResultCode.VOICEVOX_RESULT_UNLOADED_MODEL_ERROR
  | Except.error (CApiError.RustApi Error.ParseKana) =>
      VoicevoxResultCode.VOICEVOX_RESULT_PARSE_KANA_ERROR
  | Except.error (CApiError.RustApi Error.LoadUserDict) =>
      VoicevoxResultCode.VOICEVOX_RESULT_LOAD_USER_DICT_ERROR
  | Except.error (CApiError.RustApi Error.SaveUserDict) =>
      VoicevoxResultCode.VOICEVOX_RESULT_SAVE_USER_DICT_ERROR
  | Except.error (CApiError.RustApi Error.UnknownWord) =>
      VoicevoxResultCode.VOICEVOX_RESULT_UNKNOWN_USER_DICT_WORD_ERROR
  | Except.error (CApiError.RustApi Error.UseUserDict) =>
      VoicevoxResultCode.VOICEVOX_RESULT_USE_USER_DICT_ERROR
  | Except.error (CApiError.RustApi Error.InvalidWord) =>
      VoicevoxResultCode.VOICEVOX_RESULT_INVALID_USER_DICT_WORD_ERROR
  | Except.error CApiError.InvalidUtf8Input =>
      VoicevoxResultCode.VOICEVOX_RESULT_INVALID_UTF8_INPUT_ERROR
  | Except.error CApiError.InvalidAudioQuery =>
      VoicevoxResultCode.VOICEVOX_RESULT_INVALID_AUDIO_QUERY_ERROR
  | Except.error CApiError.InvalidAccentPhrase =>
      VoicevoxResultCode.VOICEVOX_RESULT_INVALID_ACCENT_PHRASE_ERROR
  | Except.error CApiError.InvalidUuid =>
      VoicevoxResultCode.VOICEVOX_RESULT_INVALID_UUID_ERROR

/-- The error kinds named by the specification (§7), as C-API errors. -/
def specErrorKinds : List CApiError :=
  [ CApiError.RustApi Error.NotLoadedOpenjtalkDict
  , CApiError.RustApi Error.GpuSupport
  , CApiError.RustApi (Error.LoadModel LoadModelErrorKind.OpenZipFile)
  , CApiError.RustApi (Error.LoadModel LoadModelErrorKind.ReadZipEntry)
  , CApiError.RustApi (Error.LoadModel LoadModelErrorKind.ModelAlreadyLoaded)
  , CApiError.RustApi (Error.LoadModel LoadModelErrorKind.StyleAlreadyLoaded)
  , CApiError.RustApi (Error.LoadModel LoadModelErrorKind.InvalidModelData)
  , CApiError.RustApi Error.GetSupportedDevices
  , CApiError.RustApi Error.InvalidStyleId
  , CApiError.RustApi Error.InvalidModelId
  , CApiError.RustApi Error.InferenceFailed
  , CApiError.RustApi Error.ExtractFullContextLabel
  , CApiError.RustApi Error.UnloadedModel
  , CApiError.RustApi Error.ParseKana ]

/-- `VoicevoxAccelerationMode` (C-API enum). -/
inductive VoicevoxAccelerationMode where
  | VOICEVOX_ACCELERATION_MODE_AUTO
  | VOICEVOX_ACCELERATION_MODE_CPU
  | VOICEVOX_ACCELERATION_MODE_GPU
deriving DecidableEq

/-- `impl From<voicevox_core::AccelerationMode> for VoicevoxAccelerationMode`
(`helpers.rs` lines 116-125). -/
def VoicevoxAccelerationMode.from_core (mode : AccelerationMode) :
    VoicevoxAccelerationMode :=
  match mode with
  | AccelerationMode.Auto =>
      VoicevoxAccelerationMode.VOICEVOX_ACCELERATION_MODE_AUTO
  | AccelerationMode.Cpu =>
      VoicevoxAccelerationMode.VOICEVOX_ACCELERATION_MODE_CPU
  | AccelerationMode.Gpu =>
      VoicevoxAccelerationMode.VOICEVOX_ACCELERATION_MODE_GPU

/-- `impl From<VoicevoxAccelerationMode> for voicevox_core::AccelerationMode`
(`helpers.rs` lines 127-136). -/
def AccelerationMode.from_c (mode : VoicevoxAccelerationMode) :
    AccelerationMode :=
  match mode with
  | VoicevoxAccelerationMode.VOICEVOX_ACCELERATION_MODE_AUTO =>
      AccelerationMode.Auto
  | VoicevoxAccelerationMode.VOICEVOX_ACCELERATION_MODE_CPU =>
      AccelerationMode.Cpu
  | VoicevoxAccelerationMode.VOICEVOX_ACCELERATION_MODE_GPU =>
      AccelerationMode.Gpu

/-- `VoicevoxTtsOptions` (C-API options record). -/
structure VoicevoxTtsOptions where
  kana : Bool
  enable_interrogative_upspeak : Bool
deriving DecidableEq

/-- `impl From<voicevox_core::TtsOptions> for VoicevoxTtsOptions`
(`helpers.rs` lines 159-166). -/
def VoicevoxTtsOptions.from_core (options : TtsOptions) : VoicevoxTtsOptions :=
  { kana := options.kana
  , enable_interrogative_upspeak := options.enable_interrogative_upspeak }

/-- `impl From<VoicevoxTtsOptions> for voicevox_core::TtsOptions`
(`helpers.rs` lines 168-175). -/
def TtsOptions.from_c (options : VoicevoxTtsOptions) : TtsOptions :=
  { kana := options.kana
  , enable_interrogative_upspeak := options.enable_interrogative_upspeak }

/-- Modelled from the spec: a mora as produced by the kana parser has its
phoneme lengths and pitch set to zero. -/
def MoraModel.zeroed (m : MoraModel) : Prop :=
  m.vowel_length = 0 ∧ m.pitch = 0 ∧
    (m.consonant_length = none ∨ m.consonant_length = some 0)

/-- Modelled from the spec: an accent phrase as produced by the kana parser
has all its moras (pause mora included) zeroed. -/
def AccentPhraseModel.zeroed (ap : AccentPhraseModel) : Prop :=
  (∀ m ∈ ap.moras, m.zeroed) ∧ ∀ m, ap.pause_mora = some m → m.zeroed

/-! Reduction lemmas for `Except.bind` and `Except.map` on known scrutinees. -/

theorem except_bind_ok {ε α β : Type} (a : α) (f : α → Except ε β) :
    (Except.ok a : Except ε α).bind f = f a :=
  rfl

theorem except_bind_error {ε α β : Type} (e : ε) (f : α → Except ε β) :
    (Except.error e : Except ε α).bind f = Except.error e :=
  rfl

theorem except_map_ok {ε α β : Type} (f : α → β) (a : α) :
    (Except.ok a : Except ε α).map f = Except.ok (f a) :=
  rfl

theorem except_map_error {ε α β : Type} (f : α → β) (e : ε) :
    (Except.error e : Except ε α).map f = Except.error e :=
  rfl

/-- Constructing a `Synthesizer` from an engine result fixes `use_gpu`. -/
theorem use_gpu_of_construct {m : Except Error SynthesisEngine} {g : Bool}
    {s : Synthesizer}
    (h : m.bind (fun engine =>
        Except.ok { synthesis_engine := engine, use_gpu := g }) =
      Except.ok s) :
    s.use_gpu = g := by
  cases m with
  | ok engine =>
      injection h with h2
      rw [← h2]
  | error e => exact Except.noConfusion h

/-! Concrete instances used by the witness theorems. -/

/-- A concrete inference core whose raw duration session returns a zero per
input phoneme. -/
def coreW : InferenceCore :=
  { duration_session := fun v _ => Except.ok (v.map fun _ => 0) }

/-- A concrete engine with the dictionary loaded. -/
def engineW : SynthesisEngine :=
  { inference_core := coreW
  , is_openjtalk_dict_loaded := true
  , create_accent_phrases := fun _ _ => Except.ok []
  , replace_mora_data := fun aps _ => Except.ok aps
  , replace_phoneme_length := fun aps _ => Except.ok aps
  , replace_mora_pitch := fun aps _ => Except.ok aps
  , synthesis_wave_format := fun _ _ _ => Except.ok [] }

/-- The same engine with the dictionary missing. -/
def engineNoDict : SynthesisEngine :=
  { engineW with is_openjtalk_dict_loaded := false }

/-- A concrete synthesizer in CPU mode. -/
def synW : Synthesizer :=
  { synthesis_engine := engineW, use_gpu := false }

/-- A concrete synthesizer in GPU mode. -/
def synGpuW : Synthesizer :=
  { synthesis_engine := engineW, use_gpu := true }

/-- A concrete synthesizer whose dictionary is not loaded. -/
def synNoDict : Synthesizer :=
  { synthesis_engine := engineNoDict, use_gpu := false }

/-- Concrete externals whose kana parser always succeeds with no phrases. -/
def extW : Externals :=
  { parse_kana := fun _ => Except.ok []
  , create_kana := fun _ => "" }

/-- Concrete externals whose kana parser always fails with `ParseKana`. -/
def extErr : Externals :=
  { parse_kana := fun _ => Except.error Error.ParseKana
  , create_kana := fun _ => "" }

/-- A concrete environment: probe reports CUDA available, DirectML not;
non-DirectML build; engine construction always succeeds. -/
def envCpuW : Environment :=
  { supported_devices_create :=
      Except.ok { cpu := true, cuda := true, dml := false }
  , new_engine := fun _ _ _ => Except.ok engineW
  , directml := false }

/-- A concrete environment whose device probe fails. -/
def envProbeFail : Environment :=
  { envCpuW with
      supported_devices_create := Except.error Error.GetSupportedDevices }

/-- Claim C1: whenever `create_accent_phrases` succeeds, `audio_query` for
the same text, style and kana flag succeeds and returns exactly those accent
phrases together with the fixed defaults: scales `(1, 0, 1, 1)`, pre/post
silences of `0.1`, sampling rate `DEFAULT_SAMPLING_RATE` (which equals
`24000`), `output_stereo = false`, and `kana = some (create_kana aps)`. -/
theorem c1_audio_query_defaults (ext : Externals) (s : Synthesizer)
    (text : String) (style_id : StyleId) (kana : Bool)
    (aps : List AccentPhraseModel)
    (h : s.create_accent_phrases ext text style_id { kana := kana } =
      Except.ok aps) :
    s.audio_query ext text style_id { kana := kana } =
      Except.ok
        { accent_phrases := aps
        , speed_scale := 1
        , pitch_scale := 0
        , intonation_scale := 1
        , volume_scale := 1
        , pre_phoneme_length := 1 / 10
        , post_phoneme_length := 1 / 10
        , output_sampling_rate := SynthesisEngine.DEFAULT_SAMPLING_RATE
        , output_stereo := false
        , kana := some (ext.create_kana aps) } ∧
    SynthesisEngine.DEFAULT_SAMPLING_RATE = 24000 := by
  constructor
  · unfold Synthesizer.audio_query
    rw [h, except_bind_ok]
  · rfl

/-- Witness for C1 at a concrete synthesizer and text. -/
theorem c1_audio_query_defaults_witness :
    synW.create_accent_phrases extW "a" 0 { kana := false } = Except.ok [] ∧
    (synW.audio_query extW "a" 0 { kana := false } =
      Except.ok
        { accent_phrases := []
        , speed_scale := 1
        , pitch_scale := 0
        , intonation_scale := 1
        , volume_scale := 1
        , pre_phoneme_length := 1 / 10
        , post_phoneme_length := 1 / 10
        , output_sampling_rate := SynthesisEngine.DEFAULT_SAMPLING_RATE
        , output_stereo := false
        , kana := some "" } ∧
      SynthesisEngine.DEFAULT_SAMPLING_RATE = 24000) :=
  ⟨rfl, c1_audio_query_defaults extW synW "a" 0 false [] rfl⟩

/-- Claim C2: `tts` is exactly the composition of `audio_query` (with the
`kana` option) and `synthesis` (with the `enable_interrogative_upspeak`
option), errors included: the two sides are equal as `Except` values. -/
theorem c2_tts_is_composition (ext : Externals) (s : Synthesizer)
    (text : String) (style_id : StyleId) (options : TtsOptions) :
    s.tts ext text style_id options =
      (s.audio_query ext text style_id { kana := options.kana }).bind
        fun audio_query =>
          s.synthesis audio_query style_id
            { enable_interrogative_upspeak :=
                options.enable_interrogative_upspeak } :=
  rfl

/-- Claim C3: if the OpenJTalk dictionary is not loaded,
`create_accent_phrases` fails with `NotLoadedOpenjtalkDict` for every text,
style and option — in particular for arbitrary kana-parser and analyzer
oracles, so neither path is consulted. -/
theorem c3_not_loaded_openjtalk_dict (ext : Externals) (s : Synthesizer)
    (text : String) (style_id : StyleId) (options : AccentPhrasesOptions)
    (h : s.synthesis_engine.is_openjtalk_dict_loaded = false) :
    s.create_accent_phrases ext text style_id options =
      Except.error Error.NotLoadedOpenjtalkDict := by
  unfold Synthesizer.create_accent_phrases
  rw [h]
  rfl

/-- Witness for C3: a synthesizer without the dictionary, on the kana path
whose parser would succeed. -/
theorem c3_not_loaded_openjtalk_dict_witness :
    synNoDict.synthesis_engine.is_openjtalk_dict_loaded = false ∧
    synNoDict.create_accent_phrases extW "a" 0 { kana := true } =
      Except.error Error.NotLoadedOpenjtalkDict :=
  ⟨rfl, c3_not_loaded_openjtalk_dict extW synNoDict "a" 0 { kana := true } rfl⟩

/-- Claim C6: `use_gpu` is immutable after construction: running any sequence
of facade operations, under any engine transition, leaves `is_gpu_mode`
unchanged. -/
theorem c6_use_gpu_immutable
    (eff : SynthesisEngine → SynthOp → SynthesisEngine)
    (s : Synthesizer) (ops : List SynthOp) :
    (s.run eff ops).is_gpu_mode = s.is_gpu_mode := by
  induction ops generalizing s with
  | nil => rfl
  | cons op ops ih => exact ih (s.step eff op)

/-- Claim C8: the three `replace_*` operations take the caller's accent
phrases by shared reference and return a fresh sequence: the caller store is
identical after each call. -/
theorem c8_replace_inputs_unchanged (s : Synthesizer) (store : CallerStore)
    (style_id : StyleId) :
    (s.replace_mora_data_call store style_id).1 = store ∧
    (s.replace_phoneme_length_call store style_id).1 = store ∧
    (s.replace_mora_pitch_call store style_id).1 = store :=
  ⟨rfl, rfl, rfl⟩

/-- Claim C10: the C-API/core conversions of the acceleration mode are
mutually inverse bijections, and the `TtsOptions` conversions preserve both
fields in both directions, so each round-trip is the identity. -/
theorem c10_conversion_round_trips :
    (∀ m : VoicevoxAccelerationMode,
      VoicevoxAccelerationMode.from_core (AccelerationMode.from_c m) = m) ∧
    (∀ m : AccelerationMode,
      AccelerationMode.from_c (VoicevoxAccelerationMode.from_core m) = m) ∧
    (∀ o : VoicevoxTtsOptions,
      (TtsOptions.from_c o).kana = o.kana ∧
      (TtsOptions.from_c o).enable_interrogative_upspeak =
        o.enable_interrogative_upspeak ∧
      VoicevoxTtsOptions.from_core (TtsOptions.from_c o) = o) ∧
    (∀ o : TtsOptions,
      (VoicevoxTtsOptions.from_core o).kana = o.kana ∧
      (VoicevoxTtsOptions.from_core o).enable_interrogative_upspeak =
        o.enable_interrogative_upspeak ∧
      TtsOptions.from_c (VoicevoxTtsOptions.from_core o) = o) := by
  refine ⟨?_, ?_, ?_, ?_⟩
  · intro m
    cases m <;> rfl
  · intro m
    cases m <;> rfl
  · intro o
    cases o
    exact ⟨rfl, rfl, rfl⟩
  · intro o
    cases o
    exact ⟨rfl, rfl, rfl⟩

/-- Claim C4: `new_with_initialize` resolves `is_gpu_mode` from the
acceleration mode — `Cpu` gives `false`, `Gpu` gives `true`, `Auto` gives the
configured backend's availability flag (`dml` under the DirectML build,
`cuda` otherwise) — and a failing device probe under `Auto` fails the
construction with the probe's error. -/
theorem c4_new_with_initialize_gpu_mode (env : Environment)
    (options : InitializeOptions) :
    (options.acceleration_mode = AccelerationMode.Cpu →
      ∀ s, Synthesizer.new_with_initialize env options = Except.ok s →
        s.is_gpu_mode = false) ∧
    (options.acceleration_mode = AccelerationMode.Gpu →
      ∀ s, Synthesizer.new_with_initialize env options = Except.ok s →
        s.is_gpu_mode = true) ∧
    (∀ d, options.acceleration_mode = AccelerationMode.Auto →
      env.supported_devices_create = Except.ok d →
      ∀ s, Synthesizer.new_with_initialize env options = Except.ok s →
        s.is_gpu_mode = (if env.directml then d.dml else d.cuda)) ∧
    (∀ e, options.acceleration_mode = AccelerationMode.Auto →
      env.supported_devices_create = Except.error e →
      Synthesizer.new_with_initialize env options = Except.error e) := by
  refine ⟨?_, ?_, ?_, ?_⟩
  · intro hmode s hs
    unfold Synthesizer.new_with_initialize at hs
    rw [hmode] at hs
    exact use_gpu_of_construct hs
  · intro hmode s hs
    unfold Synthesizer.new_with_initialize at hs
    rw [hmode] at hs
    exact use_gpu_of_construct hs
  · intro d hmode hprobe s hs
    unfold Synthesizer.new_with_initialize at hs
    rw [hmode] at hs
    rw [show (match AccelerationMode.Auto with
        | AccelerationMode.Auto =>
            env.supported_devices_create.map
              fun (supported_devices : SupportedDevices) =>
                if env.directml then supported_devices.dml
                else supported_devices.cuda
        | AccelerationMode.Cpu => Except.ok false
        | AccelerationMode.Gpu => Except.ok true) =
        env.supported_devices_create.map
          fun (supported_devices : SupportedDevices) =>
            if env.directml then supported_devices.dml
            else supported_devices.cuda from rfl, hprobe, except_map_ok] at hs
    exact use_gpu_of_construct hs
  · intro e hmode hprobe
    unfold Synthesizer.new_with_initialize
    rw [hmode]
    rw [show (match AccelerationMode.Auto with
        | AccelerationMode.Auto =>
            env.supported_devices_create.map
              fun (supported_devices : SupportedDevices) =>
                if env.directml then supported_devices.dml
                else supported_devices.cuda
        | AccelerationMode.Cpu => Except.ok false
        | AccelerationMode.Gpu => Except.ok true) =
        env.supported_devices_create.map
          fun (supported_devices : SupportedDevices) =>
            if env.directml then supported_devices.dml
            else supported_devices.cuda from rfl, hprobe, except_map_error,
      except_bind_error]

/-- Witness for C4: one application of each conjunct at concrete
environments and options. -/
theorem c4_new_with_initialize_gpu_mode_witness :
    synW.is_gpu_mode = false ∧
    synGpuW.is_gpu_mode = true ∧
    synGpuW.is_gpu_mode =
      (if envCpuW.directml then true else true) ∧
    Synthesizer.new_with_initialize envProbeFail
        { acceleration_mode := AccelerationMode.Auto
        , cpu_num_threads := 0
        , load_all_models := false } =
      Except.error Error.GetSupportedDevices :=
  ⟨(c4_new_with_initialize_gpu_mode envCpuW
      { acceleration_mode := AccelerationMode.Cpu
      , cpu_num_threads := 0
      , load_all_models := false }).1 rfl synW rfl
  , (c4_new_with_initialize_gpu_mode envCpuW
      { acceleration_mode := AccelerationMode.Gpu
      , cpu_num_threads := 0
      , load_all_models := false }).2.1 rfl synGpuW rfl
  , (c4_new_with_initialize_gpu_mode envCpuW
      { acceleration_mode := AccelerationMode.Auto
      , cpu_num_threads := 0
      , load_all_models := false }).2.2.1
      { cpu := true, cuda := true, dml := false } rfl rfl synGpuW rfl
  , (c4_new_with_initialize_gpu_mode envProbeFail
      { acceleration_mode := AccelerationMode.Auto
      , cpu_num_threads := 0
      , load_all_models := false }).2.2.2
      Error.GetSupportedDevices rfl rfl⟩

/-- Claim C5: when the raw duration session succeeds with one value per
input phoneme, `predict_duration` succeeds with a vector of the input's
length in which every element is at least `0.01` — values below `0.01` are
clamped up, not reported as an error. -/
theorem c5_predict_duration_clamped (s : Synthesizer)
    (phoneme_vector : List Int) (style_id : StyleId) (raw out : List ℚ)
    (hraw : s.synthesis_engine.inference_core.duration_session
      phoneme_vector style_id = Except.ok raw)
    (hlen : raw.length = phoneme_vector.length)
    (hout : s.predict_duration phoneme_vector style_id = Except.ok out) :
    out.length = phoneme_vector.length ∧ ∀ x ∈ out, 1 / 100 ≤ x := by
  unfold Synthesizer.predict_duration InferenceCore.predict_duration at hout
  rw [hraw, except_map_ok] at hout
  injection hout with hout
  rw [← hout]
  constructor
  · rw [List.length_map]
    exact hlen
  · intro x hx
    rcases List.mem_map.1 hx with ⟨y, _, rfl⟩
    by_cases hy : y < 1 / 100
    · rw [if_pos hy]
    · rw [if_neg hy]
      exact le_of_not_lt hy

/-- Witness for C5 at a concrete core whose raw session yields zeros, which
are clamped up to `0.01`. -/
theorem c5_predict_duration_clamped_witness :
    synW.synthesis_engine.inference_core.duration_session [0, 5] 1 =
      Except.ok [0, 0] ∧
    ([0, 0] : List ℚ).length = ([0, 5] : List Int).length ∧
    synW.predict_duration [0, 5] 1 = Except.ok [1 / 100, 1 / 100] ∧
    (([1 / 100, 1 / 100] : List ℚ).length = ([0, 5] : List Int).length ∧
      ∀ x ∈ ([1 / 100, 1 / 100] : List ℚ), 1 / 100 ≤ x) :=
  by
  have h01 : (0 : ℚ) < 1 / 100 := by norm_num
  have hout : synW.predict_duration [0, 5] 1 =
      Except.ok [1 / 100, 1 / 100] := by
    unfold Synthesizer.predict_duration InferenceCore.predict_duration
    show (Except.ok [(0 : ℚ), 0]).map _ = _
    rw [except_map_ok]
    simp [h01]
  exact ⟨rfl, rfl, hout
    , c5_predict_duration_clamped synW [0, 5] 1 [0, 0] [1 / 100, 1 / 100]
        rfl rfl hout⟩

/-- Claim C7: with the dictionary loaded and `kana = true`,
`create_accent_phrases` equals `replace_mora_data` applied to the kana
parser's output (which, per the parser's contract, is zero-initialised), and
a parser failure surfaces as the `ParseKana` error.  The parser contract
(errors are `ParseKana`; outputs are zeroed) is taken as hypotheses, the
parser itself being outside the provided sources. -/
theorem c7_kana_path (ext : Externals) (s : Synthesizer) (text : String)
    (style_id : StyleId)
    (hdict : s.synthesis_engine.is_openjtalk_dict_loaded = true)
    (hkerr : ∀ t e, ext.parse_kana t = Except.error e → e = Error.ParseKana)
    (hzero : ∀ t aps, ext.parse_kana t = Except.ok aps →
      ∀ ap ∈ aps, AccentPhraseModel.zeroed ap) :
    (s.create_accent_phrases ext text style_id { kana := true } =
      (ext.parse_kana text).bind fun parsed =>
        s.replace_mora_data parsed style_id) ∧
    (∀ aps, ext.parse_kana text = Except.ok aps →
      (∀ ap ∈ aps, AccentPhraseModel.zeroed ap) ∧
      s.create_accent_phrases ext text style_id { kana := true } =
        s.replace_mora_data aps style_id) ∧
    (∀ e, ext.parse_kana text = Except.error e →
      s.create_accent_phrases ext text style_id { kana := true } =
        Except.error Error.ParseKana) := by
  have hmain : s.create_accent_phrases ext text style_id { kana := true } =
      (ext.parse_kana text).bind fun parsed =>
        s.replace_mora_data parsed style_id := by
    unfold Synthesizer.create_accent_phrases Synthesizer.replace_mora_data
    rw [hdict]
    rfl
  refine ⟨hmain, ?_, ?_⟩
  · intro aps hok
    refine ⟨hzero text aps hok, ?_⟩
    rw [hmain, hok, except_bind_ok]
  · intro e herr
    rw [hmain, herr, except_bind_error, hkerr text e herr]

/-- Witness for C7: the succeeding parser feeds `replace_mora_data`; the
failing parser surfaces `ParseKana`. -/
theorem c7_kana_path_witness :
    synW.create_accent_phrases extW "a" 0 { kana := true } =
      synW.replace_mora_data [] 0 ∧
    synW.create_accent_phrases extErr "a" 0 { kana := true } =
      Except.error Error.ParseKana :=
  ⟨((c7_kana_path extW synW "a" 0 rfl
      (fun _ e h => Except.noConfusion h)
      (fun _ aps h => by
        injection h with h
        rw [← h]
        intro ap hap
        exact absurd hap (List.not_mem_nil ap))).2.1 [] rfl).2
  , (c7_kana_path extErr synW "a" 0 rfl
      (fun _ e h => by injection h with h; rw [h])
      (fun _ aps h => Except.noConfusion h)).2.2 Error.ParseKana rfl⟩

/-- Claim C9: `into_result_code_with_error` maps `Ok` to
`VOICEVOX_RESULT_OK`, maps each of the spec's error kinds to its own
dedicated result code, is injective on those kinds, and maps no error to
`VOICEVOX_RESULT_OK`. -/
theorem c9_result_code_mapping :
    into_result_code_with_error (Except.ok ()) =
      VoicevoxResultCode.VOICEVOX_RESULT_OK ∧
    List.Pairwise (fun a b =>
      into_result_code_with_error (Except.error a) ≠
        into_result_code_with_error (Except.error b)) specErrorKinds ∧
    (∀ e ∈ specErrorKinds,
      into_result_code_with_error (Except.error e) ≠
        VoicevoxResultCode.VOICEVOX_RESULT_OK) ∧
    (∀ e : CApiError,
      into_result_code_with_error (Except.error e) ≠
        VoicevoxResultCode.VOICEVOX_RESULT_OK) := by
  refine ⟨rfl, by decide, by decide, ?_⟩
  intro e
  cases e with
  | RustApi err =>
      cases err with
      | LoadModel kind => cases kind <;> decide
      | _ => decide
  | _ => decide

end Voicevox
